import Mathlib

/-!
# Verification of the weather CRUD service

Shallow embedding of the repository's two source files:

* `src/models/weather.py` — the SQLAlchemy ORM model `Weather`
  (table `weather_current`) and the pydantic input schema `WeatherCreate`;
* `src/api/weather.py` — the six route handlers
  (`list_weather`, `create_record`, `get_weather_by_id`,
  `update_weather_full`, `update_weather_partial`, `delete_weather`)
  and the helper `serialize_sqlalchemy_obj`.

Modelling conventions:

* timestamps (`datetime`) are integers (e.g. microseconds since the epoch);
* the database table is a `List Weather` of persisted rows;
* the SQLAlchemy `Numeric` / pydantic `float` column `wind_speed` is
  modelled by `Rat` (only storage and round-tripping matter here, no
  floating-point arithmetic is performed by the code);
* `datetime.now(UTC)` values are passed in as explicit parameters;
* a possible failure of `db.commit()` is passed in as an explicit
  `Option String` parameter (`none` = commit succeeds, `some m` = commit
  raises an exception whose text is `m`); `db.rollback()` restores the
  persisted table, which the embedding reflects by returning the original
  store on the failure path;
* a Python `AttributeError` raised by class attribute lookup is the
  `PyErr.attributeError` value; the handlers' `try/except` structure
  becomes a `match` on `Except`: an `HTTPException` raised in the `try`
  block is re-raised unchanged, any other exception is wrapped as a 500.
-/

namespace WeatherApp

/-- Timestamps: `datetime` values modelled as integers. -/
abbrev Timestamp := Int

/-- A value stored in one column of a serialized row (one entry of the
dictionary produced by `serialize_sqlalchemy_obj`). -/
inductive Value where
  | timeV (t : Timestamp)
  | intV (n : Int)
  | strV (s : String)
  | ratV (q : Rat)
  | nullV
deriving DecidableEq, Repr

/-- A nullable integer column value, as serialized. -/
def optInt : Option Int → Value
  | none => .nullV
  | some n => .intV n

/-- A nullable string column value, as serialized. -/
def optStr : Option String → Value
  | none => .nullV
  | some s => .strV s

/-- A nullable numeric column value, as serialized. -/
def optRat : Option Rat → Value
  | none => .nullV
  | some q => .ratV q

/-- The ORM model `Weather` (models/weather.py, lines 16-48): the columns
declared on table `weather_current`.  `collection_time` is the primary key
and `nullable=False`; all other columns are nullable.  The class declares
exactly these nine columns and nothing else — in particular no `id`
column and no `create_date` / `update_date` columns. -/
structure Weather where
  collection_time : Timestamp
  temperature : Option Int := none
  temperature_min : Option Int := none
  temperature_max : Option Int := none
  humidity : Option Int := none
  description : Option String := none
  feels_like : Option Int := none
  wind_speed : Option Rat := none
  wind_direction : Option Int := none
deriving DecidableEq, Repr

/-- The names of the columns of `Weather.__table__.columns`, in declaration
order (models/weather.py, lines 34-42). -/
def weatherColumnNames : List String :=
  ["collection_time", "temperature", "temperature_min", "temperature_max",
   "humidity", "description", "feels_like", "wind_speed", "wind_direction"]

/-- `getattr(obj, column.name)` for a `Weather` ORM instance: the value of
the named declared column. -/
def weatherGetCol (w : Weather) (name : String) : Value :=
  if name = "collection_time" then .timeV w.collection_time
  else if name = "temperature" then optInt w.temperature
  else if name = "temperature_min" then optInt w.temperature_min
  else if name = "temperature_max" then optInt w.temperature_max
  else if name = "humidity" then optInt w.humidity
  else if name = "description" then optStr w.description
  else if name = "feels_like" then optInt w.feels_like
  else if name = "wind_speed" then optRat w.wind_speed
  else if name = "wind_direction" then optInt w.wind_direction
  else .nullV

/-- A `Weather` ORM *instance* as it lives in a session: the column values
(`row`), plus the plain Python instance attributes `create_date` and
`update_date` that `create_record` / the update handlers assign
(api/weather.py lines 72-73, 141, 181).  These two attributes are NOT
columns of the table, so they are never persisted and never serialized. -/
structure WeatherInstance where
  row : Weather
  create_date : Option Timestamp := none
  update_date : Option Timestamp := none
deriving DecidableEq, Repr

/-- `serialize_sqlalchemy_obj` (api/weather.py line 20):
`{column.name: getattr(obj, column.name) for column in obj.__table__.columns}`.
It iterates exactly the declared table columns, so only the nine column
values of `row` are read; the instance attributes `create_date` and
`update_date` are never touched. -/
def serialize_sqlalchemy_obj (inst : WeatherInstance) : List (String × Value) :=
  weatherColumnNames.map (fun c => (c, weatherGetCol inst.row c))

/-- A Python exception other than `HTTPException` that the handlers can
raise inside their `try` blocks. -/
inductive PyErr where
  | attributeError (name : String)
deriving DecidableEq, Repr

/-- `str(e)` for the embedded exceptions (the text interpolated in
`f"Internal server error: {str(e)}"`). -/
def pyErrStr : PyErr → String
  | .attributeError n => "type object Weather has no attribute " ++ n

/-- Python class attribute lookup `getattr(Weather, name)` on the ORM
class: the declared columns are the class attributes relevant to query
filters; looking up any other name (in particular `id`, which
models/weather.py never declares) raises `AttributeError`. -/
def getattrWeatherClass (name : String) : Except PyErr String :=
  if weatherColumnNames.contains name then .ok name else .error (.attributeError name)

/-- `db.query(Weather).filter(Weather.<colName> == v).first()`, together
with the index of the matched row in the table.  Evaluating the Python
filter expression first evaluates the class attribute `Weather.<colName>`,
which raises `AttributeError` when no such column is declared; otherwise
the first row whose column equals `v` is returned (or `none`). -/
def queryWeatherFilterFirst (store : List Weather) (colName : String) (v : Value) :
    Except PyErr (Option (Nat × Weather)) :=
  match getattrWeatherClass colName with
  | .error e => .error e
  | .ok c => .ok (store.enum.find? (fun p => decide (weatherGetCol p.2 c = v)))

/-- An HTTP response produced by a handler: a serialized row, a list of
serialized rows, the delete confirmation `{"detail": msg}`, or an
`HTTPException` with status code and detail text. -/
inductive Response where
  | ok (body : List (String × Value))
  | okList (body : List (List (String × Value)))
  | okDetail (detail : String)
  | err (status : Nat) (detail : String)
deriving DecidableEq, Repr

/-- Outcome of one handler call: the persisted table afterwards, and the
HTTP response. -/
structure HandlerOut where
  store : List Weather
  resp : Response
deriving DecidableEq, Repr

/-- `f"Weather with id {id} not found"` (the 404 detail). -/
def notFoundMsg (i : Int) : String :=
  "Weather with id " ++ toString i ++ " not found"

/-- `f"Internal server error: {str(e)}"` (the 500 detail). -/
def internalMsg (s : String) : String :=
  "Internal server error: " ++ s

/-- `f"Weather with id {id} deleted successfully"`. -/
def deletedMsg (i : Int) : String :=
  "Weather with id " ++ toString i ++ " deleted successfully"

/-- A field of the pydantic model `WeatherCreate` (models/weather.py lines
69-76): either absent from the request body (`unset`, so `model_dump` with
`exclude_unset=True` drops it and with `exclude_unset=False` emits its
default `None`), or explicitly provided with a value (`val (some x)`) or an
explicit null (`val none`). -/
inductive PyField (α : Type) where
  | unset
  | val (v : Option α)
deriving DecidableEq, Repr

/-- The value a `PyField` contributes when its key IS in the dumped dict:
provided value, or the default `None` for `unset` (used on the
`exclude_unset=False` path, where every key is emitted). -/
def PyField.dumped {α : Type} : PyField α → Option α
  | .unset => none
  | .val v => v

/-- Merge one `PyField` into an existing column value: keys absent from an
`exclude_unset=True` dump leave the column alone, present keys overwrite
it. -/
def PyField.mergeInto {α : Type} : PyField α → Option α → Option α
  | .unset, old => old
  | .val v, _ => v

/-- The pydantic input schema `WeatherCreate` (models/weather.py lines
51-76): `collection_time` is required (no default), every other field is
`Optional[...] = None`.  A value of this structure is a request body that
already passed validation, so `collection_time` is always present. -/
structure WeatherCreate where
  collection_time : Timestamp
  temperature : PyField Int := .unset
  temperature_min : PyField Int := .unset
  temperature_max : PyField Int := .unset
  humidity : PyField Int := .unset
  description : PyField String := .unset
  feels_like : PyField Int := .unset
  wind_speed : PyField Rat := .unset
  wind_direction : PyField Int := .unset
deriving DecidableEq, Repr

/-- `Weather(**weather_data.model_dump(exclude_unset=True))`
(api/weather.py lines 70-71): a fresh ORM row where each column set in the
input takes the given value and every unset column keeps its default
(NULL).  For a fresh row, a key absent from the dict and a key dumped as
`None` both leave the column NULL. -/
def weatherFromCreate (inp : WeatherCreate) : Weather :=
  { collection_time := inp.collection_time
    temperature := inp.temperature.dumped
    temperature_min := inp.temperature_min.dumped
    temperature_max := inp.temperature_max.dumped
    humidity := inp.humidity.dumped
    description := inp.description.dumped
    feels_like := inp.feels_like.dumped
    wind_speed := inp.wind_speed.dumped
    wind_direction := inp.wind_direction.dumped }

/-- The `setattr` loop of `update_weather_full` (api/weather.py lines
137-139) over `model_dump(exclude_unset=False)`: every schema field is
written to the fetched row, unset optional fields as `None`. -/
def applyFullUpdate (inp : WeatherCreate) (_w : Weather) : Weather :=
  { collection_time := inp.collection_time
    temperature := inp.temperature.dumped
    temperature_min := inp.temperature_min.dumped
    temperature_max := inp.temperature_max.dumped
    humidity := inp.humidity.dumped
    description := inp.description.dumped
    feels_like := inp.feels_like.dumped
    wind_speed := inp.wind_speed.dumped
    wind_direction := inp.wind_direction.dumped }

/-- The `setattr` loop of the PATCH handler (api/weather.py lines 177-179)
over `model_dump(exclude_unset=True)`: only fields present in the request
are written; `collection_time`, being required, is always present. -/
def applyMergeUpdate (inp : WeatherCreate) (w : Weather) : Weather :=
  { collection_time := inp.collection_time
    temperature := inp.temperature.mergeInto w.temperature
    temperature_min := inp.temperature_min.mergeInto w.temperature_min
    temperature_max := inp.temperature_max.mergeInto w.temperature_max
    humidity := inp.humidity.mergeInto w.humidity
    description := inp.description.mergeInto w.description
    feels_like := inp.feels_like.mergeInto w.feels_like
    wind_speed := inp.wind_speed.mergeInto w.wind_speed
    wind_direction := inp.wind_direction.mergeInto w.wind_direction }

/-- The relation "sorted before" used by
`order_by(desc(Weather.collection_time))`: `a` precedes `b` when `a`'s
collection time is at least `b`'s. -/
def collectionTimeDesc (a b : Weather) : Prop :=
  b.collection_time ≤ a.collection_time

instance : DecidableRel collectionTimeDesc := fun a b =>
  inferInstanceAs (Decidable (b.collection_time ≤ a.collection_time))

instance : IsTotal Weather collectionTimeDesc :=
  ⟨fun a b => le_total b.collection_time a.collection_time⟩

instance : IsTrans Weather collectionTimeDesc :=
  ⟨fun _ _ _ hab hbc => le_trans hbc hab⟩

/-- The table ordered by `collection_time` descending. -/
def sortDesc (store : List Weather) : List Weather :=
  List.insertionSort collectionTimeDesc store

/-- The page window of `list_weather` (api/weather.py lines 41-48):
`offset = (page - 1) * limit`, then `.offset(offset).limit(limit)` on the
descending-ordered table. -/
def listWindow (store : List Weather) (page limit : Nat) : List Weather :=
  ((sortDesc store).drop ((page - 1) * limit)).take limit

/-- Handler `list_weather` (api/weather.py lines 23-51).  Every attribute
it evaluates (`Weather.collection_time`) exists, so the `try` body cannot
raise and the handler returns the serialized page.  Rows loaded from the
table carry no `create_date` / `update_date` instance attributes. -/
def list_weather (store : List Weather) (page limit : Nat) : HandlerOut :=
  ⟨store,
   .okList ((listWindow store page limit).map
     (fun w => serialize_sqlalchemy_obj ⟨w, none, none⟩))⟩

/-- Handler `create_record` (api/weather.py lines 54-83): build the row
from the `exclude_unset` dump, stamp `create_date` / `update_date` as
instance attributes (NOT columns), `db.add` + `db.commit`.  On commit
failure: `db.rollback()` (table unchanged) and a 500 with the exception
text; on success the new row is persisted and the refreshed instance is
serialized. -/
def create_record (store : List Weather) (inp : WeatherCreate)
    (now1 now2 : Timestamp) (commitErr : Option String) : HandlerOut :=
  let new_row := weatherFromCreate inp
  let new_record : WeatherInstance := ⟨new_row, some now1, some now2⟩
  match commitErr with
  | some m => ⟨store, .err 500 (internalMsg m)⟩
  | none => ⟨store ++ [new_row], .ok (serialize_sqlalchemy_obj new_record)⟩

/-- Handler `get_weather_by_id` (api/weather.py lines 86-109): filter by
the class attribute `Weather.id`, 404 when no row matches, otherwise the
serialized row; a non-`HTTPException` exception becomes a 500. -/
def get_weather_by_id (store : List Weather) (i : Int) : HandlerOut :=
  match queryWeatherFilterFirst store "id" (.intV i) with
  | .error e => ⟨store, .err 500 (internalMsg (pyErrStr e))⟩
  | .ok none => ⟨store, .err 404 (notFoundMsg i)⟩
  | .ok (some p) => ⟨store, .ok (serialize_sqlalchemy_obj ⟨p.2, none, none⟩)⟩

/-- Handler `update_weather_full` (api/weather.py lines 112-149): fetch by
`Weather.id` (404 when absent), apply every schema field from the
`exclude_unset=False` dump, stamp the `update_date` instance attribute,
commit (rollback + 500 on failure), serialize the refreshed instance. -/
def update_weather_full (store : List Weather) (i : Int) (inp : WeatherCreate)
    (now : Timestamp) (commitErr : Option String) : HandlerOut :=
  match queryWeatherFilterFirst store "id" (.intV i) with
  | .error e => ⟨store, .err 500 (internalMsg (pyErrStr e))⟩
  | .ok none => ⟨store, .err 404 (notFoundMsg i)⟩
  | .ok (some p) =>
    let record := applyFullUpdate inp p.2
    match commitErr with
    | some m => ⟨store, .err 500 (internalMsg m)⟩
    | none => ⟨store.set p.1 record,
               .ok (serialize_sqlalchemy_obj ⟨record, none, some now⟩)⟩

/-- Handler `update_weather_partial` of the source (api/weather.py lines
152-189), the PATCH route: identical to the full update except that the
dump uses `exclude_unset=True`, so only fields present in the request are
written to the fetched row. -/
def update_weather_patch (store : List Weather) (i : Int) (inp : WeatherCreate)
    (now : Timestamp) (commitErr : Option String) : HandlerOut :=
  match queryWeatherFilterFirst store "id" (.intV i) with
  | .error e => ⟨store, .err 500 (internalMsg (pyErrStr e))⟩
  | .ok none => ⟨store, .err 404 (notFoundMsg i)⟩
  | .ok (some p) =>
    let record := applyMergeUpdate inp p.2
    match commitErr with
    | some m => ⟨store, .err 500 (internalMsg m)⟩
    | none => ⟨store.set p.1 record,
               .ok (serialize_sqlalchemy_obj ⟨record, none, some now⟩)⟩

/-- Handler `delete_weather` (api/weather.py lines 192-219): fetch by
`Weather.id` (404 when absent), delete the row and commit (rollback + 500
on failure), return the confirmation message. -/
def delete_weather (store : List Weather) (i : Int)
    (commitErr : Option String) : HandlerOut :=
  match queryWeatherFilterFirst store "id" (.intV i) with
  | .error e => ⟨store, .err 500 (internalMsg (pyErrStr e))⟩
  | .ok none => ⟨store, .err 404 (notFoundMsg i)⟩
  | .ok (some p) =>
    match commitErr with
    | some m => ⟨store, .err 500 (internalMsg m)⟩
    | none => ⟨store.eraseIdx p.1, .okDetail (deletedMsg i)⟩

/-- A serialized body whose keys are exactly the nine declared table
columns, in order. -/
def bodyIsDeclaredColumns (b : List (String × Value)) : Prop :=
  b.map Prod.fst = weatherColumnNames

/-- Every serialized row carried by a response has exactly the declared
columns as keys (delete confirmations and errors carry no row). -/
def respDeclaredOnly : Response → Prop
  | .ok b => bodyIsDeclaredColumns b
  | .okList bs => ∀ b ∈ bs, bodyIsDeclaredColumns b
  | .okDetail _ => True
  | .err _ _ => True

/-- The 500 detail produced by the missing `Weather.id` attribute. -/
def idAttrErrDetail : String :=
  internalMsg (pyErrStr (.attributeError "id"))

/-- Filtering by the undeclared column `id` always raises: the `Weather`
model declares no `id` attribute, so the class attribute lookup fails
before the store is consulted. -/
theorem query_id_errors (store : List Weather) (v : Value) :
    queryWeatherFilterFirst store "id" v = .error (.attributeError "id") := rfl

/-- C1: every by-id operation — get-by-id, full-update, partial-update,
delete — never returns a row and never reports not-found: since the
`Weather` model declares no `id` column or attribute, evaluating the
filter `Weather.id` raises inside the handler's `try` block, and every
call is surfaced as a 500 internal error that leaves the table
unchanged. -/
theorem byIdOperationsAlwaysInternalError (store : List Weather) (i : Int)
    (inp : WeatherCreate) (now : Timestamp) (ce : Option String) :
    get_weather_by_id store i = ⟨store, .err 500 idAttrErrDetail⟩ ∧
    update_weather_full store i inp now ce = ⟨store, .err 500 idAttrErrDetail⟩ ∧
    update_weather_patch store i inp now ce = ⟨store, .err 500 idAttrErrDetail⟩ ∧
    delete_weather store i ce = ⟨store, .err 500 idAttrErrDetail⟩ :=
  ⟨rfl, rfl, rfl, rfl⟩

/-- C2, failing evaluation: creating a record from the spec's example
input (only `collection_time` supplied, modelled as the instant 100)
succeeds, but the returned object's keys are exactly the nine declared
columns — it contains no `id` key and neither audit-timestamp key,
contradicting the claim that the generated id and both audit timestamps
are keys of the returned object. -/
theorem create_response_lacks_id_and_audit :
    (create_record [] { collection_time := 100 } 100 101 none).resp
      = .ok (serialize_sqlalchemy_obj
          ⟨weatherFromCreate { collection_time := 100 }, some 100, some 101⟩) ∧
    (serialize_sqlalchemy_obj
        ⟨weatherFromCreate { collection_time := 100 }, some 100, some 101⟩).map Prod.fst
      = weatherColumnNames ∧
    weatherColumnNames.contains "id" = false ∧
    weatherColumnNames.contains "create_date" = false ∧
    weatherColumnNames.contains "update_date" = false :=
  ⟨rfl, rfl, rfl, rfl, rfl⟩

/-- C3, failing evaluation: on an empty table (so no row with id 1
exists), each of get-by-id, full-update, partial-update and delete at
id 1 returns a 500 internal error, not the 404 naming the missing id
that the claim requires. -/
theorem missing_id_yields_500_not_404 :
    (get_weather_by_id [] 1).resp = .err 500 idAttrErrDetail ∧
    (update_weather_full [] 1 { collection_time := 100 } 50 none).resp
      = .err 500 idAttrErrDetail ∧
    (update_weather_patch [] 1 { collection_time := 100 } 50 none).resp
      = .err 500 idAttrErrDetail ∧
    (delete_weather [] 1 none).resp = .err 500 idAttrErrDetail ∧
    (get_weather_by_id [] 1).resp ≠ .err 404 (notFoundMsg 1) :=
  ⟨rfl, rfl, rfl, rfl, by decide⟩

/-- C4, failing evaluation: a partial-update request that supplies
`collection_time` (value 99) against a table holding the single row with
primary key 50 is not accepted and does not overwrite the primary key:
the handler returns a 500 internal error and the stored row still has
`collection_time` 50. -/
theorem patch_collection_time_not_applied :
    update_weather_patch [{ collection_time := 50 }] 1
        { collection_time := 99 } 60 none
      = ⟨[{ collection_time := 50 }], .err 500 idAttrErrDetail⟩ := rfl

/-- C5, failing evaluation: the spec's concrete scenario
PATCH with `humidity` 60 (plus the mandatory `collection_time`) against
the stored row (collection time 40, temperature 72, humidity 55) changes
nothing: the handler returns a 500 internal error and a subsequent read of
the table still shows humidity 55. -/
theorem patch_single_field_not_applied :
    update_weather_patch
        [{ collection_time := 40, temperature := some 72, humidity := some 55 }] 1
        { collection_time := 40, humidity := .val (some 60) } 77 none
      = ⟨[{ collection_time := 40, temperature := some 72, humidity := some 55 }],
         .err 500 idAttrErrDetail⟩ := rfl

/-- C6, failing evaluation: the spec's concrete scenario PUT with only
`collection_time` and `temperature` 80 against the stored row holding
humidity 55 applies nothing: the handler returns a 500 internal error, the
stored humidity remains 55 (not reset to null) and the temperature remains
72 (not 80). -/
theorem put_replace_not_applied :
    update_weather_full
        [{ collection_time := 40, temperature := some 72, humidity := some 55 }] 1
        { collection_time := 40, temperature := .val (some 80) } 77 none
      = ⟨[{ collection_time := 40, temperature := some 72, humidity := some 55 }],
         .err 500 idAttrErrDetail⟩ := rfl

/-- C7, failing evaluation: create with collection time 100 and
temperature 72 succeeds and persists the row, but the round trip can
never be completed: get-by-id on the resulting table returns a 500
internal error for every integer id, so no field can be read back via
get-by-id at all. -/
theorem create_then_get_roundtrip_broken :
    (create_record [] { collection_time := 100, temperature := .val (some 72) }
        100 100 none).store
      = [{ collection_time := 100, temperature := some 72 }] ∧
    ∀ i : Int,
      (get_weather_by_id
          (create_record [] { collection_time := 100, temperature := .val (some 72) }
            100 100 none).store i).resp
        = .err 500 idAttrErrDetail :=
  ⟨rfl, fun _ => rfl⟩

/-- C8: for every page ≥ 1 and limit in [1,100], `list_weather` returns
the stored rows ordered by collection time descending, sliced to the
window starting at offset `(page-1)*limit` of length at most `limit`; a
page past the last row yields an empty sequence (and the handler never
errors). -/
theorem list_weather_pagination_correct (store : List Weather)
    (page limit : Nat) (_hp : 1 ≤ page) (_hl1 : 1 ≤ limit) (_hl2 : limit ≤ 100) :
    (list_weather store page limit).resp
      = .okList ((listWindow store page limit).map
          (fun w => serialize_sqlalchemy_obj ⟨w, none, none⟩)) ∧
    (listWindow store page limit).length ≤ limit ∧
    (listWindow store page limit).Pairwise collectionTimeDesc ∧
    (store.length ≤ (page - 1) * limit → listWindow store page limit = []) := by
  refine ⟨rfl, ?_, ?_, ?_⟩
  · calc (listWindow store page limit).length
        = min limit ((sortDesc store).drop ((page - 1) * limit)).length :=
          List.length_take _ _
      _ ≤ limit := min_le_left _ _
  · have hs : (sortDesc store).Pairwise collectionTimeDesc :=
      List.sorted_insertionSort collectionTimeDesc store
    have hsub : List.Sublist (listWindow store page limit) (sortDesc store) :=
      (List.take_sublist _ _).trans (List.drop_sublist _ _)
    exact hs.sublist hsub
  · intro h
    have hlen : (sortDesc store).length = store.length :=
      List.length_insertionSort collectionTimeDesc store
    have hdrop : (sortDesc store).drop ((page - 1) * limit) = [] := by
      refine List.drop_eq_nil_of_le ?_
      rw [hlen]; exact h
    unfold listWindow
    rw [hdrop, List.take_nil]

/-- C8 witness: the pagination theorem at a concrete two-row table with
page 1 and limit 10. -/
theorem list_weather_pagination_correct_witness :
    (1 ≤ 1 ∧ 1 ≤ 10 ∧ 10 ≤ 100) ∧
    ((list_weather [{ collection_time := 5 }, { collection_time := 9 }] 1 10).resp
      = .okList ((listWindow [{ collection_time := 5 }, { collection_time := 9 }] 1 10).map
          (fun w => serialize_sqlalchemy_obj ⟨w, none, none⟩)) ∧
    (listWindow [{ collection_time := 5 }, { collection_time := 9 }] 1 10).length ≤ 10 ∧
    (listWindow [{ collection_time := 5 }, { collection_time := 9 }] 1 10).Pairwise
      collectionTimeDesc ∧
    (([{ collection_time := 5 }, { collection_time := 9 }] : List Weather).length
        ≤ (1 - 1) * 10 →
      listWindow [{ collection_time := 5 }, { collection_time := 9 }] 1 10 = [])) :=
  ⟨⟨by decide, by decide, by decide⟩,
   list_weather_pagination_correct
     [{ collection_time := 5 }, { collection_time := 9 }] 1 10
     (by decide) (by decide) (by decide)⟩

/-- C9: mutating operations never leave a partially-applied write behind
and never swallow the failure.  When `create_record`'s commit raises, the
rollback leaves the table exactly as before and the exception text is
surfaced as a 500; the full-update, partial-update and delete handlers
likewise always leave the table unchanged and surface their failure as an
HTTP error (for every commit outcome, since their lookup raises before
any write). -/
theorem mutations_rollback_and_surface_errors (store : List Weather)
    (inp : WeatherCreate) (i : Int) (t1 t2 now : Timestamp) (m : String)
    (ce : Option String) :
    create_record store inp t1 t2 (some m) = ⟨store, .err 500 (internalMsg m)⟩ ∧
    (update_weather_full store i inp now ce).store = store ∧
    (update_weather_full store i inp now ce).resp = .err 500 idAttrErrDetail ∧
    (update_weather_patch store i inp now ce).store = store ∧
    (update_weather_patch store i inp now ce).resp = .err 500 idAttrErrDetail ∧
    (delete_weather store i ce).store = store ∧
    (delete_weather store i ce).resp = .err 500 idAttrErrDetail :=
  ⟨rfl, rfl, rfl, rfl, rfl, rfl, rfl⟩

/-- C10: serialization iterates only the declared table columns, so every
serialized row produced by any of the six handlers has exactly the nine
declared column names as keys — `id`, `create_date` and `update_date` are
never among them, even though `create_record` sets the two audit values as
instance attributes. -/
theorem serialization_declared_columns_only (inst : WeatherInstance)
    (store : List Weather) (inp : WeatherCreate) (i : Int)
    (t1 t2 now : Timestamp) (page limit : Nat) (ce : Option String) :
    (serialize_sqlalchemy_obj inst).map Prod.fst = weatherColumnNames ∧
    weatherColumnNames.length = 9 ∧
    weatherColumnNames.contains "id" = false ∧
    weatherColumnNames.contains "create_date" = false ∧
    weatherColumnNames.contains "update_date" = false ∧
    respDeclaredOnly (list_weather store page limit).resp ∧
    respDeclaredOnly (create_record store inp t1 t2 ce).resp ∧
    respDeclaredOnly (get_weather_by_id store i).resp ∧
    respDeclaredOnly (update_weather_full store i inp now ce).resp ∧
    respDeclaredOnly (update_weather_patch store i inp now ce).resp ∧
    respDeclaredOnly (delete_weather store i ce).resp := by
  refine ⟨rfl, rfl, rfl, rfl, rfl, ?_, ?_, trivial, trivial, trivial, trivial⟩
  · intro b hb
    simp only [list_weather, respDeclaredOnly, List.mem_map] at hb ⊢
    obtain ⟨w, _, rfl⟩ := hb
    rfl
  · cases ce with
    | some m => trivial
    | none => exact rfl

end WeatherApp
